import Mathlib

/-!
Verification of the local-cache helper, content-listing, scroll and slug
properties of the `heyitsarpit.dev` site.

The local-cache helper (`setLocalStorage` / `getLocalStorage`) is embedded
from `src/unnamed/part_002`.  Browser `localStorage` is modelled as an
association list of string keys to string values together with two flags:
`defined` (whether `globalThis.localStorage` is defined at all) and
`opsThrow` (whether its `getItem`/`setItem` operations throw, e.g. under
privacy mode or quota exhaustion).  `JSON.stringify`/`JSON.parse` are
modelled by a codec: `parse` returning `none` models `JSON.parse` throwing.
A `try`-body is a function into `Except Unit`; the `catch` wrapper turns it
into a total function, which is the embedding of "never throws".
-/

/-- The raw key-value store backing `localStorage`: lookup of a key. -/
def storeGet : List (String × String) → String → Option String
  | [], _ => none
  | (k, v) :: rest, key => if k = key then some v else storeGet rest key

/-- The raw key-value store backing `localStorage`: `setItem`'s effect,
replacing the binding of `key` (or appending it). -/
def storeSet : List (String × String) → String → String → List (String × String)
  | [], key, val => [(key, val)]
  | (k, v) :: rest, key, val =>
    if k = key then (key, val) :: rest else (k, v) :: storeSet rest key val

/-- The browser storage environment seen by the helper:
`defined` models `globalThis.localStorage !== undefined`, `opsThrow`
models `getItem`/`setItem` throwing, `store` is the persisted data. -/
structure LocalStorage where
  defined : Bool
  opsThrow : Bool
  store : List (String × String)
deriving DecidableEq, Repr

/-- `window.localStorage.setItem key val`: throws when `opsThrow`. -/
def lsSetItem (ls : LocalStorage) (key val : String) : Except Unit LocalStorage :=
  if ls.opsThrow then .error () else .ok { ls with store := storeSet ls.store key val }

/-- `window.localStorage.getItem key`: throws when `opsThrow`. -/
def lsGetItem (ls : LocalStorage) (key : String) : Except Unit (Option String) :=
  if ls.opsThrow then .error () else .ok (storeGet ls.store key)

/-- `JSON.stringify` / `JSON.parse` for values of type `T`;
`parse s = none` models `JSON.parse s` throwing a `SyntaxError`. -/
structure JSCodec (T : Type) where
  stringify : T → String
  parse : String → Option T

/-- A value the spec calls "JSON-serializable": `JSON.parse` inverts
`JSON.stringify` on it, and `JSON.stringify` of it is a non-empty string
(true of every JSON text). -/
def JSCodec.serializes {T : Type} (c : JSCodec T) (v : T) : Prop :=
  c.parse (c.stringify v) = some v ∧ c.stringify v ≠ ""

/-- The `try`-block body of `setLocalStorage` (src/unnamed/part_002 lines 2-7). -/
def setLocalStorageTry {T : Type} (c : JSCodec T) (ls : LocalStorage)
    (key : String) (data : T) : Except Unit LocalStorage :=
  if ls.defined = false then .ok ls
  else lsSetItem ls key (c.stringify data)

/-- `setLocalStorage` from src/unnamed/part_002: the `catch` block logs the
error and leaves storage as it was. -/
def setLocalStorage {T : Type} (c : JSCodec T) (ls : LocalStorage)
    (key : String) (data : T) : LocalStorage :=
  match setLocalStorageTry c ls key data with
  | .ok ls2 => ls2
  | .error _ => ls

/-- The `try`-block body of `getLocalStorage` (src/unnamed/part_002 lines
14-26).  `if (storedData)` is JavaScript truthiness: taken exactly when the
stored string is present and non-empty.  On the truthy branch
`JSON.parse` either returns (`some`) or throws (`.error`); on the falsy
branch the code seeds storage via `setLocalStorage` and returns the
fallback. -/
def getLocalStorageTry {T : Type} (c : JSCodec T) (ls : LocalStorage)
    (key : String) (initialValue : T) : Except Unit (T × LocalStorage) :=
  if ls.defined = false then .ok (initialValue, ls)
  else
    match lsGetItem ls key with
    | .error e => .error e
    | .ok storedData =>
      match storedData with
      | some s =>
        if s ≠ "" then
          match c.parse s with
          | some v => .ok (v, ls)
          | none => .error ()
        else .ok (initialValue, setLocalStorage c ls key initialValue)
      | none => .ok (initialValue, setLocalStorage c ls key initialValue)

/-- `getLocalStorage` from src/unnamed/part_002: the `catch` block logs and
returns `initialValue`, leaving storage as it was. -/
def getLocalStorage {T : Type} (c : JSCodec T) (ls : LocalStorage)
    (key : String) (initialValue : T) : T × LocalStorage :=
  match getLocalStorageTry c ls key initialValue with
  | .ok r => r
  | .error _ => (initialValue, ls)

/-- A concrete codec over `Nat` used for witnesses and counterexamples:
`n` is serialized as `n + 1` copies of `'a'`, so that no value serializes
to the empty string and strings such as "x" fail to parse. -/
def natCodec : JSCodec Nat where
  stringify := fun n => String.mk (List.replicate (n + 1) 'a')
  parse := fun s =>
    match s.data with
    | [] => none
    | l => if l.all (fun c => c = 'a') then some (l.length - 1) else none

lemma storeGet_storeSet_self (s : List (String × String)) (k v : String) :
    storeGet (storeSet s k v) k = some v := by
  induction s with
  | nil => simp [storeSet, storeGet]
  | cons hd tl ih =>
    obtain ⟨k', v'⟩ := hd
    by_cases h : k' = k
    · simp [storeSet, storeGet, h]
    · simp [storeSet, storeGet, h, ih]

lemma storeGet_storeSet_other (s : List (String × String)) (k v k' : String)
    (h : k' ≠ k) : storeGet (storeSet s k v) k' = storeGet s k' := by
  have h2 : k ≠ k' := fun hc => h (Eq.symm hc)
  induction s with
  | nil => simp [storeSet, storeGet, h2]
  | cons hd tl ih =>
    obtain ⟨k0, v0⟩ := hd
    by_cases hk : k0 = k
    · subst hk
      simp [storeSet, storeGet, h2]
    · by_cases hk' : k0 = k'
      · subst hk'
        simp [storeSet, storeGet, hk]
      · simp [storeSet, storeGet, hk, hk', ih]

lemma setLocalStorage_available {T : Type} (c : JSCodec T) (ls : LocalStorage)
    (key : String) (data : T) (hdef : ls.defined = true) (hthr : ls.opsThrow = false) :
    setLocalStorage c ls key data =
      { ls with store := storeSet ls.store key (c.stringify data) } := by
  simp [setLocalStorage, setLocalStorageTry, lsSetItem, hdef, hthr]

/-- Frame lemma: `setLocalStorage` never touches a key other than its own. -/
lemma setLocalStorage_frame {T : Type} (c : JSCodec T) (ls : LocalStorage)
    (key : String) (data : T) (k' : String) (h : k' ≠ key) :
    storeGet (setLocalStorage c ls key data).store k' = storeGet ls.store k' := by
  unfold setLocalStorage setLocalStorageTry lsSetItem
  by_cases hdef : ls.defined = false
  · simp [hdef]
  · by_cases hthr : ls.opsThrow
    · simp [hdef, hthr]
    · simp [hdef, hthr, storeGet_storeSet_other _ _ _ _ h]

/-- `getLocalStorage` either leaves the state alone or seeds it with the
fallback through `setLocalStorage`: these are the only two outcomes. -/
lemma getLocalStorage_state {T : Type} (c : JSCodec T) (ls : LocalStorage)
    (key : String) (fb : T) :
    (getLocalStorage c ls key fb).2 = ls ∨
    (getLocalStorage c ls key fb).2 = setLocalStorage c ls key fb := by
  unfold getLocalStorage getLocalStorageTry lsGetItem
  by_cases hdef : ls.defined = false
  · simp [hdef]
  · by_cases hthr : ls.opsThrow
    · simp [hdef, hthr]
    · simp only [hdef, hthr, if_false, Bool.false_eq_true, if_neg]
      cases hsd : storeGet ls.store key with
      | none => simp
      | some s =>
        by_cases hs : s = ""
        · subst hs
          simp
        · cases hp : c.parse s <;> simp [hs, hp]

lemma getLocalStorage_seed_eq {T : Type} (c : JSCodec T) (ls : LocalStorage)
    (key : String) (fb : T)
    (hdef : ls.defined = true) (hthr : ls.opsThrow = false)
    (hnone : storeGet ls.store key = none) :
    getLocalStorage c ls key fb = (fb, setLocalStorage c ls key fb) := by
  unfold getLocalStorage getLocalStorageTry lsGetItem
  simp [hdef, hthr, hnone]

lemma getLocalStorage_stored_eq {T : Type} (c : JSCodec T) (ls : LocalStorage)
    (key : String) (fb : T) (s : String) (v : T)
    (hdef : ls.defined = true) (hthr : ls.opsThrow = false)
    (hsd : storeGet ls.store key = some s) (hne : s ≠ "")
    (hp : c.parse s = some v) :
    getLocalStorage c ls key fb = (v, ls) := by
  unfold getLocalStorage getLocalStorageTry lsGetItem
  simp [hdef, hthr, hsd, hne, hp]

/-- C1: writing `v` under `k` and then reading `k` back returns `v`, for
any JSON-serializable `v`, when storage is defined and not throwing. -/
theorem getLocalStorage_after_setLocalStorage {T : Type} (c : JSCodec T)
    (ls : LocalStorage) (k : String) (v fb : T)
    (hdef : ls.defined = true) (hthr : ls.opsThrow = false)
    (hser : c.serializes v) :
    (getLocalStorage c (setLocalStorage c ls k v) k fb).1 = v := by
  obtain ⟨hp, hne⟩ := hser
  rw [setLocalStorage_available c ls k v hdef hthr,
    getLocalStorage_stored_eq c { ls with store := storeSet ls.store k (c.stringify v) }
      k fb (c.stringify v) v hdef hthr
      (storeGet_storeSet_self ls.store k (c.stringify v)) hne hp]

/-- Witness for C1 at a concrete key, value and store. -/
theorem getLocalStorage_after_setLocalStorage_witness :
    (getLocalStorage natCodec
      (setLocalStorage natCodec ⟨true, false, []⟩ "k" 5) "k" 0).1 = 5 :=
  getLocalStorage_after_setLocalStorage natCodec ⟨true, false, []⟩ "k" 5 0
    rfl rfl ⟨by decide, by decide⟩

/-- A storage state holding a corrupted (unparseable, for `natCodec`)
value under key "k". -/
def corruptLS : LocalStorage := ⟨true, false, [("k", "x")]⟩

/-- C2 counterexample: on a present-but-unparseable stored value,
`getLocalStorage` returns the fallback but does NOT write the fallback
back: the corrupted raw string stays in storage. -/
theorem getLocalStorage_no_writeback_cex :
    (getLocalStorage natCodec corruptLS "k" 7).1 = 7 ∧
    (getLocalStorage natCodec corruptLS "k" 7).2 = corruptLS ∧
    storeGet (getLocalStorage natCodec corruptLS "k" 7).2.store "k" ≠
      some (natCodec.stringify 7) := by decide

/-- C2 amended: on a present-but-unparseable stored value,
`getLocalStorage` returns the fallback and does not throw, but leaves
storage unchanged (the `catch` path skips the write-back). -/
theorem getLocalStorage_parse_failure {T : Type} (c : JSCodec T)
    (ls : LocalStorage) (k : String) (fb : T) (s : String)
    (hdef : ls.defined = true) (hthr : ls.opsThrow = false)
    (hsd : storeGet ls.store k = some s) (hne : s ≠ "")
    (hp : c.parse s = none) :
    getLocalStorage c ls k fb = (fb, ls) := by
  unfold getLocalStorage getLocalStorageTry lsGetItem
  simp [hdef, hthr, hsd, hne, hp]

/-- Witness for the amended C2 at the corrupted concrete store. -/
theorem getLocalStorage_parse_failure_witness :
    getLocalStorage natCodec corruptLS "k" 7 = (7, corruptLS) :=
  getLocalStorage_parse_failure natCodec corruptLS "k" 7 "x"
    rfl rfl rfl (by decide) (by decide)

/-- C3: reading a never-written key returns the fallback and seeds
storage with it, so a second read with a different fallback still
returns the original one. -/
theorem getLocalStorage_seeds {T : Type} (c : JSCodec T) (ls : LocalStorage)
    (k : String) (fb other : T)
    (hdef : ls.defined = true) (hthr : ls.opsThrow = false)
    (hnone : storeGet ls.store k = none) (hser : c.serializes fb) :
    (getLocalStorage c ls k fb).1 = fb ∧
    (getLocalStorage c (getLocalStorage c ls k fb).2 k other).1 = fb := by
  obtain ⟨hp, hne⟩ := hser
  rw [getLocalStorage_seed_eq c ls k fb hdef hthr hnone]
  refine ⟨rfl, ?_⟩
  show (getLocalStorage c (setLocalStorage c ls k fb) k other).1 = fb
  rw [setLocalStorage_available c ls k fb hdef hthr,
    getLocalStorage_stored_eq c { ls with store := storeSet ls.store k (c.stringify fb) }
      k other (c.stringify fb) fb hdef hthr
      (storeGet_storeSet_self ls.store k (c.stringify fb)) hne hp]

/-- Witness for C3 at a concrete key and fallbacks. -/
theorem getLocalStorage_seeds_witness :
    (getLocalStorage natCodec ⟨true, false, []⟩ "k" 4).1 = 4 ∧
    (getLocalStorage natCodec
      (getLocalStorage natCodec ⟨true, false, []⟩ "k" 4).2 "k" 9).1 = 4 :=
  getLocalStorage_seeds natCodec ⟨true, false, []⟩ "k" 4 9
    rfl rfl rfl ⟨by decide, by decide⟩

/-- C4: when storage is unavailable (undefined, or its operations throw),
`setLocalStorage` is a no-op and `getLocalStorage` returns the fallback
with the state untouched; both return normally (they are total). -/
theorem localStorage_unavailable {T : Type} (c : JSCodec T)
    (ls : LocalStorage) (k : String) (v fb : T)
    (h : ls.defined = false ∨ ls.opsThrow = true) :
    setLocalStorage c ls k v = ls ∧ getLocalStorage c ls k fb = (fb, ls) := by
  rcases h with h | h
  · constructor <;>
      simp [setLocalStorage, setLocalStorageTry, getLocalStorage,
        getLocalStorageTry, h]
  · cases hdef : ls.defined <;>
      constructor <;>
        simp [setLocalStorage, setLocalStorageTry, lsSetItem,
          getLocalStorage, getLocalStorageTry, lsGetItem, h, hdef]

/-- Witness for C4 at a concrete throwing store. -/
theorem localStorage_unavailable_witness :
    setLocalStorage natCodec ⟨true, true, [("a", "1")]⟩ "k" 3 =
      ⟨true, true, [("a", "1")]⟩ ∧
    getLocalStorage natCodec ⟨true, true, [("a", "1")]⟩ "k" 8 =
      (8, ⟨true, true, [("a", "1")]⟩) :=
  localStorage_unavailable natCodec ⟨true, true, [("a", "1")]⟩ "k" 3 8
    (Or.inr rfl)

/-- C9: a stored empty string is falsy, so `getLocalStorage` treats the
key as absent: it returns the fallback and writes the fallback under the
key. -/
theorem getLocalStorage_empty_string {T : Type} (c : JSCodec T)
    (ls : LocalStorage) (k : String) (fb : T)
    (hdef : ls.defined = true) (hthr : ls.opsThrow = false)
    (hempty : storeGet ls.store k = some "") :
    (getLocalStorage c ls k fb).1 = fb ∧
    storeGet (getLocalStorage c ls k fb).2.store k = some (c.stringify fb) := by
  have h1 : getLocalStorage c ls k fb = (fb, setLocalStorage c ls k fb) := by
    unfold getLocalStorage getLocalStorageTry lsGetItem
    simp [hdef, hthr, hempty]
  rw [h1]
  refine ⟨rfl, ?_⟩
  rw [setLocalStorage_available c ls k fb hdef hthr]
  exact storeGet_storeSet_self ls.store k (c.stringify fb)

/-- Witness for C9 at a concrete store holding an empty string. -/
theorem getLocalStorage_empty_string_witness :
    (getLocalStorage natCodec ⟨true, false, [("k", "")]⟩ "k" 6).1 = 6 ∧
    storeGet (getLocalStorage natCodec ⟨true, false, [("k", "")]⟩ "k" 6).2.store
      "k" = some (natCodec.stringify 6) :=
  getLocalStorage_empty_string natCodec ⟨true, false, [("k", "")]⟩ "k" 6
    rfl rfl rfl

/-- C10: neither operation changes the stored value of any other key. -/
theorem localStorage_frame {T : Type} (c : JSCodec T) (ls : LocalStorage)
    (k : String) (v fb : T) (k' : String) (h : k' ≠ k) :
    storeGet (setLocalStorage c ls k v).store k' = storeGet ls.store k' ∧
    storeGet (getLocalStorage c ls k fb).2.store k' = storeGet ls.store k' := by
  refine ⟨setLocalStorage_frame c ls k v k' h, ?_⟩
  rcases getLocalStorage_state c ls k fb with h2 | h2 <;> rw [h2]
  exact setLocalStorage_frame c ls k fb k' h

/-- Witness for C10 at concrete distinct keys. -/
theorem localStorage_frame_witness :
    storeGet (setLocalStorage natCodec ⟨true, false, [("a", "1")]⟩ "k" 2).store
      "a" = storeGet [("a", "1")] "a" ∧
    storeGet (getLocalStorage natCodec ⟨true, false, [("a", "1")]⟩ "k" 3).2.store
      "a" = storeGet [("a", "1")] "a" :=
  localStorage_frame natCodec ⟨true, false, [("a", "1")]⟩ "k" 2 3 "a"
    (by decide)

/-!
The content loader, route generation and slug pipeline are **not** under
`src/` (only a content file, an article page consumer and `package.json`
naming `rehype-slug` are); the definitions below are modelled from the
spec's words, as flagged in their doc comments.
-/

/-- Modelled from the spec: an Article's front-matter metadata.  The spec
stores `date` as a "parseable string"; it is modelled here as the parsed
timestamp (a natural number), which is what the descending-date ordering
compares.  The raw/compiled bodies play no role in the listing claims. -/
structure Article where
  title : String
  slug : String
  date : Nat
  published : Bool
  listed : Bool
  description : String
  tags : List String
deriving DecidableEq, Repr

/-- Descending-date order: `a` precedes `b` when `b`'s date is at most
`a`'s. -/
def dateGe (a b : Article) : Prop := b.date ≤ a.date

instance : DecidableRel dateGe := fun a b => Nat.decLe b.date a.date

/-- Modelled from the spec: a generated article index lists exactly the
articles with `listed = true` and `published = true`, in descending date
order. -/
def generatedIndex (arts : List Article) : List Article :=
  List.insertionSort dateGe (arts.filter fun a => a.listed && a.published)

/-- Modelled from the spec: resolving a direct route looks the slug up
among published articles only; `none` is the not-found/excluded state. -/
def resolveRoute (arts : List Article) (s : String) : Option Article :=
  (arts.filter fun a => a.published).find? fun a => a.slug = s

lemma mem_generatedIndex (arts : List Article) (a : Article) :
    a ∈ generatedIndex arts ↔
      a ∈ arts ∧ a.listed = true ∧ a.published = true := by
  unfold generatedIndex
  rw [List.mem_insertionSort, List.mem_filter]
  simp [and_assoc]

/-- C5: an article with `published = false` is in no generated index, and
when every article sharing its slug is unpublished its direct route
resolves to the not-found state. -/
theorem unpublished_excluded (arts : List Article) (a : Article)
    (ha : a ∈ arts) (hpub : a.published = false)
    (huniq : ∀ b ∈ arts, b.slug = a.slug → b.published = false) :
    a ∉ generatedIndex arts ∧ resolveRoute arts a.slug = none := by
  constructor
  · intro hmem
    rw [mem_generatedIndex] at hmem
    rw [hpub] at hmem
    exact Bool.false_ne_true hmem.2.2
  · unfold resolveRoute
    rw [List.find?_eq_none]
    intro b hb
    rw [List.mem_filter] at hb
    simp only [decide_eq_true_eq]
    intro hslug
    have hbp := huniq b hb.1 hslug
    rw [hbp] at hb
    exact Bool.false_ne_true hb.2

/-- Concrete articles for the listing witnesses. -/
def artA : Article := ⟨"A", "a", 2, true, true, "", []⟩

def artB : Article := ⟨"B", "b", 1, true, true, "", []⟩

def artU : Article := ⟨"U", "u", 3, false, true, "", []⟩

/-- Witness for C5 at a concrete unpublished article. -/
theorem unpublished_excluded_witness :
    artU ∉ generatedIndex [artA, artU] ∧
    resolveRoute [artA, artU] artU.slug = none :=
  unpublished_excluded [artA, artU] artU (by decide) (by decide) (by decide)

/-- C6: a generated index holds exactly the listed, published articles,
is sorted by date descending, and permuting the input permutes nothing
essential: the outputs are permutations of each other (hence equal once
sortedness pins the order up to date ties). -/
theorem generatedIndex_spec (arts : List Article) :
    (∀ a, a ∈ generatedIndex arts ↔
      a ∈ arts ∧ a.listed = true ∧ a.published = true) ∧
    List.Sorted dateGe (generatedIndex arts) ∧
    ∀ arts2, arts.Perm arts2 →
      (generatedIndex arts).Perm (generatedIndex arts2) := by
  refine ⟨fun a => mem_generatedIndex arts a, ?_, ?_⟩
  · haveI : IsTotal Article dateGe := ⟨fun a b => Nat.le_total b.date a.date⟩
    haveI : IsTrans Article dateGe :=
      ⟨fun _ _ _ hab hbc => Nat.le_trans hbc hab⟩
    exact List.sorted_insertionSort dateGe _
  · intro arts2 hperm
    have h1 := List.perm_insertionSort dateGe
      (arts.filter fun a => a.listed && a.published)
    have h2 := List.perm_insertionSort dateGe
      (arts2.filter fun a => a.listed && a.published)
    exact h1.trans ((hperm.filter _).trans h2.symm)

/-- Witness for C6 at a concrete pair of input orders. -/
theorem generatedIndex_spec_witness :
    (artA ∈ generatedIndex [artB, artA] ↔
      artA ∈ [artB, artA] ∧ artA.listed = true ∧ artA.published = true) ∧
    List.Sorted dateGe (generatedIndex [artB, artA]) ∧
    (generatedIndex [artB, artA]).Perm (generatedIndex [artA, artB]) := by
  obtain ⟨h1, h2, h3⟩ := generatedIndex_spec [artB, artA]
  exact ⟨h1 artA, h2, h3 [artA, artB] (List.Perm.swap artA artB [])⟩

/-- Modelled from the spec: the Scroll Provider's derived percent —
(offset / maxOffset) × 100 clamped to [0,100], defined as 0 when
maxOffset = 0 to avoid division by zero.  The provider component is not
under src/; its consumer (src/components/ScrollProgress.tsx) only renders
the value as a CSS percentage. -/
def scrollPercent (offset maxOffset : ℚ) : ℚ :=
  if maxOffset = 0 then 0 else min 100 (max 0 (offset / maxOffset * 100))

/-- C7: for any offset in [0, maxOffset] the percent lies in [0,100];
it is 0 when maxOffset is 0, and 100 at maxOffset (in the dividing case
maxOffset ≠ 0; at maxOffset = 0 the spec's division-by-zero clause takes
precedence and the value is 0). -/
theorem scrollPercent_spec (offset maxOffset : ℚ)
    (h0 : 0 ≤ offset) (h1 : offset ≤ maxOffset) :
    0 ≤ scrollPercent offset maxOffset ∧
    scrollPercent offset maxOffset ≤ 100 ∧
    (maxOffset = 0 → scrollPercent offset maxOffset = 0) ∧
    (offset = maxOffset → maxOffset ≠ 0 →
      scrollPercent offset maxOffset = 100) := by
  unfold scrollPercent
  by_cases hm : maxOffset = 0
  · simp [hm]
  · rw [if_neg hm]
    refine ⟨le_min (by norm_num) (le_max_left 0 _), min_le_left _ _,
      fun h => absurd h hm, fun heq _ => ?_⟩
    rw [heq, div_self hm]
    norm_num

/-- Witness for C7 at a concrete offset halfway down a concrete page. -/
theorem scrollPercent_spec_witness :
    0 ≤ scrollPercent 1 2 ∧ scrollPercent 1 2 ≤ 100 ∧
    ((2 : ℚ) = 0 → scrollPercent 1 2 = 0) ∧
    ((1 : ℚ) = 2 → (2 : ℚ) ≠ 0 → scrollPercent 1 2 = 100) :=
  scrollPercent_spec 1 2 (by norm_num) (by norm_num)

/-- Modelled from the spec: the heading slug of `rehype-slug` (named in
src/package.json but not vendored under src/) — lower-case the text and
collapse each run of non-alphanumeric characters to a single "-"
separator, dropping such runs at either end.  `slugWordsAux` gathers the
maximal alphanumeric runs (the accumulator holds the current run
reversed). -/
def slugWordsAux : List Char → List Char → List (List Char)
  | [], acc => if acc.isEmpty then [] else [acc.reverse]
  | c :: rest, acc =>
    if c.isAlphanum then slugWordsAux rest (c :: acc)
    else if acc.isEmpty then slugWordsAux rest []
    else acc.reverse :: slugWordsAux rest []

/-- Interleave the separator between the alphanumeric runs. -/
def joinHyphen : List (List Char) → List Char
  | [] => []
  | [w] => w
  | w :: ws => w ++ '-' :: joinHyphen ws

/-- The heading-slug function: lower-case, split on non-alphanumeric
runs, join with "-". -/
def slugify (s : String) : String :=
  String.mk (joinHyphen (slugWordsAux (s.data.map Char.toLower) []))

/-- C8: the slug of the heading "Hello, World!" is "hello-world". -/
theorem slugify_hello_world : slugify "Hello, World!" = "hello-world" := by
  decide
